import Mathlib

/-
Verification of the category-rendering pipeline and conversation flows of a
Telegram storefront bot (src/main.py) via a shallow embedding in Lean 4.
Every definition mirrors the corresponding Python function; network sends,
message deletions and store mutations are made explicit as values (event
lists, returned states).
-/

set_option maxHeartbeats 1000000

/-- A decoded bitmap, abstracted to its pixel dimensions. -/
structure Img where
  width : Nat
  height : Nat
deriving DecidableEq

/-- Mirrors PIL Image.thumbnail((400, 400)): downsample preserving aspect
ratio so that neither dimension exceeds 400; images already within the
bound are unchanged. -/
def thumbnail (i : Img) : Img :=
  if i.width ≤ 400 ∧ i.height ≤ 400 then i
  else
    let i1 : Img := if 400 < i.width then ⟨400, max (i.height * 400 / i.width) 1⟩ else i
    if 400 < i1.height then ⟨max (i1.width * 400 / i1.height) 1, 400⟩ else i1

/-- A catalog row (database.Product): id, category tag, name, integer price,
photo file id, description. -/
structure Product where
  id : Int
  category : String
  name : String
  price : Int
  photo_id : String
  description : String
deriving DecidableEq

instance : Inhabited Product := ⟨⟨0, "", "", 0, "", ""⟩⟩

/-- Digit run of a Python int literal: digits with single underscores allowed
only between digits (state records whether the previous char was a digit). -/
def pyDigitsAux : List Char → Nat → Bool → Option Nat
  | [], acc, lastDigit => if lastDigit then some acc else none
  | c :: cs, acc, lastDigit =>
    if c.isDigit then pyDigitsAux cs (acc * 10 + (c.toNat - 48)) true
    else if c == '_' && lastDigit then pyDigitsAux cs acc false
    else none

/-- Python str.strip(): drop whitespace from both ends (over the char list,
so that it evaluates by kernel reduction). -/
def pyStrip (s : String) : List Char :=
  ((s.toList.dropWhile Char.isWhitespace).reverse.dropWhile Char.isWhitespace).reverse

/-- Mirrors Python int(str): strip surrounding whitespace, optional sign,
then a digit run; raises ValueError (here: none) on anything else. -/
def pyInt? (s : String) : Option Int :=
  match pyStrip s with
  | [] => none
  | c :: cs =>
    if c == '-' then (pyDigitsAux cs 0 false).map (fun n => -(n : Int))
    else if c == '+' then (pyDigitsAux cs 0 false).map (fun n => (n : Int))
    else (pyDigitsAux (c :: cs) 0 false).map (fun n => (n : Int))

/-- An HTTP response as observed by download_image: status code and body. -/
structure HttpResponse where
  status : Nat
  body : List Nat
deriving DecidableEq

/-- Process-wide state touched by download_image: the URL-keyed image cache
(newest entry first, as Python dict assignment overwrites) and a counter of
network retrievals performed. -/
structure DlState where
  image_cache : List (String × Img)
  network_calls : Nat
deriving DecidableEq

/-- Mirrors download_image (main.py lines 89-113). Parameters net and
decodeImg model the aiohttp GET (none = network error / exception) and
PIL Image.open (none = decode error). On a cache hit the cached bitmap is
returned without touching the network; on a miss one retrieval is counted,
and only a fully successful fetch+decode+resize populates the cache. -/
def download_image (net : String → Option HttpResponse) (decodeImg : List Nat → Option Img)
    (st : DlState) (url : String) : DlState × Option Img :=
  match List.lookup url st.image_cache with
  | some img => (st, some img)
  | none =>
    let st1 : DlState := { st with network_calls := st.network_calls + 1 }
    match net url with
    | none => (st1, none)
    | some resp =>
      if resp.status = 200 then
        match decodeImg resp.body with
        | none => (st1, none)
        | some img0 =>
          let img := thumbnail img0
          ({ st1 with image_cache := (url, img) :: st1.image_cache }, some img)
      else (st1, none)

/-- The collage artifact produced by create_collage_sync, abstracted to the
canvas dimensions and the ordered paste positions of the input images. -/
structure Collage where
  width : Nat
  height : Nat
  pastes : List (Nat × Nat)
deriving DecidableEq

/-- Mirrors create_collage_sync (main.py lines 115-144): cols = min(3, n),
rows = (n + cols - 1) // cols, canvas cols*w by rows*h using the first
image's size, image i pasted at ((i mod cols)*w, (i div cols)*h). For an
empty input the Python code raises ZeroDivisionError at the rows line,
which the except handler turns into None. -/
def create_collage_sync (images : List Img) : Option Collage :=
  let n := images.length
  let cols := min 3 n
  if cols = 0 then none
  else
    match images.head? with
    | none => none
    | some first =>
      some { width := cols * first.width,
             height := ((n + cols - 1) / cols) * first.height,
             pastes := (List.range n).map (fun i => ((i % cols) * first.width, (i / cols) * first.height)) }

/-- Caption header written by create_combined_message. -/
def caption_header (category_name : String) : String :=
  "📋 " ++ category_name ++ " - список моделей:\n\n"

/-- One numbered caption line: idx, name, price. -/
def product_line (idx : Nat) (p : Product) : String :=
  toString idx ++ ". " ++ p.name ++ " - " ++ toString p.price ++ " руб.\n"

/-- The enumerate(products, 1) accumulation loop of create_combined_message. -/
def productsTextAux : Nat → List Product → String
  | _, [] => ""
  | idx, p :: ps => product_line idx p ++ productsTextAux (idx + 1) ps

/-- Mirrors create_combined_message (main.py lines 146-172): gathers image
fetch results, drops the misses, fails (None) if no image succeeded,
otherwise builds the caption over the FULL product list (numbered from 1),
composes the collage from the surviving images and returns
(collage, caption, number of products). -/
def create_combined_message (imgs : List (Option Img)) (products : List Product)
    (category_name : String) : Option (Collage × String × Nat) :=
  let images := imgs.filterMap id
  if images.isEmpty then none
  else
    let products_text := caption_header category_name ++ productsTextAux 1 products
    match create_collage_sync images with
    | none => none
    | some c => some (c, products_text, products.length)

/-- An inline keyboard button: label text and callback data. -/
structure InlineButton where
  text : String
  callback_data : String
deriving DecidableEq

/-- The back-to-menu button appended after the numbered rows. -/
def back_to_menu_button : InlineButton := ⟨"⬅️ Назад в меню", "back_to_menu"⟩

/-- The numbered selection button for display index idx (1-based): label is
the number, callback data carries products[idx-1].id. -/
def product_button (ps : List Product) (idx : Nat) : InlineButton :=
  ⟨toString idx, "product_" ++ toString (ps.getD (idx - 1) default).id⟩

/-- One iteration of the button-building loop of show_category: append the
button to the current row and flush the row after every third button. -/
def buttons_step (ps : List Product) (acc : List (List InlineButton) × List InlineButton)
    (idx : Nat) : List (List InlineButton) × List InlineButton :=
  let row := acc.2 ++ [product_button ps idx]
  if idx % 3 = 0 then (acc.1 ++ [row], []) else (acc.1, row)

/-- Mirrors the button construction of show_category (main.py lines 230-248):
numbered buttons for idx = 1..n in rows of three, a leftover partial row,
then a back-to-menu row. -/
def category_buttons (ps : List Product) : List (List InlineButton) :=
  let r := (List.range' 1 ps.length).foldl (buttons_step ps) ([], [])
  (if r.2.isEmpty then r.1 else r.1 ++ [r.2]) ++ [[back_to_menu_button]]

/-- Per-user session record (user_data[user_id] in main.py): active category,
the render-time product snapshot (the dict p.id -> p, kept here as the
ordered list it was built from), and the message ids currently active. -/
structure SessionData where
  category : String
  products : List Product
  last_msg_ids : List Int
deriving DecidableEq

/-- Lookup in the render-time dict built by p.id -> p comprehension: for a
duplicate id the later entry overwrites, so the last match wins. -/
def products_dict_find (ps : List Product) (pid : Int) : Option Product :=
  (ps.filter (fun p => p.id == pid)).getLast?

/-- Observable side effects of a category render. -/
inductive RenderEvent
  | deleteMsg (id : Int)
  | answerNoProducts
  | answerCollageError
  | emitCollage (msgId : Int) (caption : String) (buttons : List (List InlineButton))
  | emitList (msgId : Int) (caption : String) (buttons : List (List InlineButton))
deriving DecidableEq

/-- Mirrors delete_previous_messages (main.py lines 82-87): a deletion is
attempted for every recorded id; a failure of one attempt is logged and does
not abort the remaining attempts, so the attempt list is the full id list. -/
def delete_previous_messages (ids : List Int) : List RenderEvent :=
  ids.map RenderEvent.deleteMsg

/-- Point update of the user_data map. -/
def update_ud (ud : Int → Option SessionData) (uid : Int) (v : Option SessionData) :
    Int → Option SessionData :=
  fun u => if u == uid then v else ud u

/-- Display names of the category tags, as in show_products_list. -/
def category_display (category : String) : String :=
  (List.lookup category
    [("main", "🏎 Мейн модели"), ("special", "🚗 Спец. серии"),
     ("premium", "🏁 Премиум модели"), ("zamak", "🔮 Замак модели"),
     ("team_transport", "🚚 Тим транспорт")]).getD category

/-- Mirrors show_products_list (main.py lines 270-326): text-only fallback
render built from the session snapshot; deletes the session's recorded
message ids, emits the list, records the new message id. -/
def show_products_list (ud : Int → Option SessionData) (uid : Int) (newMsgId : Int) :
    (Int → Option SessionData) × List RenderEvent :=
  match ud uid with
  | none => (ud, [])
  | some s =>
    let caption := caption_header (category_display s.category) ++ productsTextAux 1 s.products
    (update_ud ud uid (some { s with last_msg_ids := [newMsgId] }),
     delete_previous_messages s.last_msg_ids
       ++ [RenderEvent.emitList newMsgId caption (category_buttons s.products)])

/-- Mirrors show_category (main.py lines 187-268), success paths. products is
the fresh catalog query result for the category; imgs the per-product image
fetch results; newMsgId the id the transport assigns to the emitted message.
Faithful to the source order: the session entry is OVERWRITTEN (with
last_msg_ids reset to []) at line 209 first, and only afterwards (line 251)
is the deletion of user_data[user_id].last_msg_ids attempted. -/
def show_category (ud : Int → Option SessionData) (uid : Int) (category : String)
    (category_name : String) (products : List Product) (imgs : List (Option Img))
    (newMsgId : Int) : (Int → Option SessionData) × List RenderEvent :=
  if products.isEmpty then (ud, [RenderEvent.answerNoProducts])
  else
    let ud1 := update_ud ud uid (some ⟨category, products, []⟩)
    match create_combined_message imgs products category_name with
    | none =>
      let r := show_products_list ud1 uid newMsgId
      (r.1, RenderEvent.answerCollageError :: r.2)
    | some c =>
      let toDelete := match ud1 uid with
        | some s => s.last_msg_ids
        | none => []
      (update_ud ud1 uid (some ⟨category, products, [newMsgId]⟩),
       delete_previous_messages toDelete
         ++ [RenderEvent.emitCollage newMsgId c.2.1 (category_buttons products)])

/-- Outcome of the product_ callback handler show_product. -/
inductive ShowProductResult
  | notFound
  | shown (p : Product) (category : String)
deriving DecidableEq

/-- Mirrors show_product (main.py lines 328-360): if the user has no session
entry or the id is absent from the render-time products dict, answer
"Товар не найден"; otherwise show the product resolved from the snapshot. -/
def show_product (ud : Option SessionData) (product_id : Int) : ShowProductResult :=
  match ud with
  | none => ShowProductResult.notFound
  | some s =>
    match products_dict_find s.products product_id with
    | none => ShowProductResult.notFound
    | some p => ShowProductResult.shown p s.category

/-- A cart row (database.Cart): row id, owning user, referenced product. -/
structure CartItem where
  id : Int
  user_id : Int
  product_id : Int
deriving DecidableEq

/-- The external relational store: product table and cart table. -/
structure Store where
  products : List Product
  cart : List CartItem
deriving DecidableEq

/-- session.query(Cart).filter(Cart.user_id == user_id).all() -/
def cart_items_for (s : Store) (uid : Int) : List CartItem :=
  s.cart.filter (fun c => c.user_id == uid)

/-- session.query(Product).filter(Product.id == pid).first() -/
def find_product (s : Store) (pid : Int) : Option Product :=
  (s.products.filter (fun p => p.id == pid)).head?

/-- Resolve every cart item to its product row; none if any lookup misses
(in the source that miss raises on product.name and lands in the except
branch before the cart is cleared). -/
def resolve_cart (s : Store) (items : List CartItem) : Option (List Product) :=
  items.mapM (fun c => find_product s c.product_id)

/-- session.query(Cart).filter(Cart.user_id == user_id).delete() -/
def clear_cart_for (s : Store) (uid : Int) : Store :=
  { s with cart := s.cart.filter (fun c => !(c.user_id == uid)) }

/-- Checkout conversation states (OrderStates). -/
inductive ConvState
  | waiting_phone
  | waiting_payment_info
deriving DecidableEq

/-- Per-user FSM context for checkout: current state (none = cleared / Idle)
and the contact accumulated by process_phone. -/
structure OrderCtx where
  state : Option ConvState
  contact : Option String
deriving DecidableEq

/-- The cleared context produced by state.clear(). -/
def cleared_ctx : OrderCtx := ⟨none, none⟩

/-- Observable side effects of process_payment_info. -/
inductive PayEvent
  | answerEmptyCart
  | commitClearCart
  | answerOrder (contact payment : String) (lines : List (String × Int)) (total : Int)
  | notifyAdmin (userTag contact payment : String) (lines : List (String × Int)) (total : Int)
  | answerError
deriving DecidableEq

/-- Mirrors process_payment_info (main.py lines 602-664). The cart is
re-queried from the store passed at call time. Empty cart: notice, no store
change, context cleared. Otherwise the total is accumulated over the resolved
cart rows, the cart rows of the user are deleted and committed, then the user
confirmation and the operator notification are sent; userSendOk/adminSendOk
model those sends failing, which lands in the except branch after the commit.
The finally block clears the conversation context on every path. -/
def process_payment_info (s : Store) (uid : Int) (ctx : OrderCtx) (payment_info : String)
    (user_tag : String) (userSendOk adminSendOk : Bool) : Store × OrderCtx × List PayEvent :=
  let contact := ctx.contact.getD "не указан"
  let items := cart_items_for s uid
  if items.isEmpty then
    (s, cleared_ctx, if userSendOk then [PayEvent.answerEmptyCart] else [PayEvent.answerError])
  else
    match resolve_cart s items with
    | none => (s, cleared_ctx, [PayEvent.answerError])
    | some prods =>
      let lines := prods.map (fun p => (p.name, p.price))
      let total := (prods.map (fun p => p.price)).sum
      let s2 := clear_cart_for s uid
      if userSendOk then
        if adminSendOk then
          (s2, cleared_ctx,
           [PayEvent.commitClearCart,
            PayEvent.answerOrder contact payment_info lines total,
            PayEvent.notifyAdmin user_tag contact payment_info lines total])
        else
          (s2, cleared_ctx,
           [PayEvent.commitClearCart,
            PayEvent.answerOrder contact payment_info lines total,
            PayEvent.answerError])
      else
        (s2, cleared_ctx, [PayEvent.commitClearCart, PayEvent.answerError])

/-- Catalog-admin add-product conversation states (AddProduct). -/
inductive AddState
  | waiting_photo
  | waiting_name
  | waiting_price
  | waiting_description
  | waiting_category
deriving DecidableEq

/-- Step data accumulated by the add-product flow (FSM storage). -/
structure AddData where
  photo_id : Option String
  name : Option String
  price : Option Int
  description : Option String
deriving DecidableEq

/-- Mirrors process_price (main.py lines 703-711): int(message.text) is
attempted; on success the price is stored and the state advances to
waiting_description; on ValueError the error re-prompt is sent and neither
the state nor the accumulated data is touched. -/
def process_price (data : AddData) (text : String) :
    Option (AddState × AddData) × String :=
  match pyInt? text with
  | some price =>
    (some (AddState.waiting_description, { data with price := some price }),
     "Введите описание товара:")
  | none =>
    (some (AddState.waiting_price, data), "❌ Цена должна быть числом! Попробуйте еще раз")

/-- The enumerated category labels accepted by process_category. -/
def category_map : List (String × String) :=
  [("Мейн модели (main)", "main"),
   ("Спец. серии (special)", "special"),
   ("Премиум модели (premium)", "premium"),
   ("Замак модели (zamak)", "zamak"),
   ("Тим транспорт (team_transport)", "team_transport")]

/-- Mirrors process_category (main.py lines 731-771): a label outside
category_map re-prompts and returns before the try block, leaving state and
data untouched; a valid label persists the accumulated fields as a new
product and clears the context (a missing field raises KeyError inside the
try, so the product is not stored but the finally still clears). -/
def process_category (store : List Product) (nextId : Int) (data : AddData) (text : String) :
    List Product × Option (AddState × AddData) × String :=
  match List.lookup text category_map with
  | none => (store, some (AddState.waiting_category, data), "❌ Выберите категорию из предложенных")
  | some cat =>
    match data.name, data.price, data.photo_id, data.description with
    | some nm, some pr, some ph, some ds =>
      (store ++ [⟨nextId, cat, nm, pr, ph, ds⟩], none,
       "✅ Товар успешно добавлен в категорию " ++ cat ++ "!\n\nНазвание: " ++ nm
         ++ "\nЦена: " ++ toString pr ++ " руб.")
    | _, _, _, _ => (store, none, "❌ Ошибка при сохранении товара")

/-- One iteration of the token loop of process_delete_id: parse the token
with int(); on ValueError record the raw token as not found; otherwise look
the id up (first matching row), delete the row and record its name, or
record str(id) as not found. The accumulator is (remaining products,
deleted names, not-found reports). -/
def deleteStep (acc : List Product × List String × List String) (tok : String) :
    List Product × List String × List String :=
  match pyInt? tok with
  | none => (acc.1, acc.2.1, acc.2.2 ++ [tok])
  | some pid =>
    match (acc.1.filter (fun p => p.id == pid)).head? with
    | none => (acc.1, acc.2.1, acc.2.2 ++ [toString pid])
    | some p => (acc.1.eraseP (fun q => q.id == pid), acc.2.1 ++ [p.name], acc.2.2)

/-- The full token loop of process_delete_id over an already-split token
list, starting from the live product table. -/
def deleteTokens (ps : List Product) (toks : List String) :
    List Product × List String × List String :=
  toks.foldl deleteStep (ps, [], [])

/-- Accumulating loop behind tokenize: current token chars are collected in
reverse; a whitespace char flushes the token if non-empty. -/
def splitWsAux : List Char → List Char → List (List Char)
  | [], acc => if acc.isEmpty then [] else [acc.reverse]
  | c :: cs, acc =>
    if c.isWhitespace then
      if acc.isEmpty then splitWsAux cs [] else acc.reverse :: splitWsAux cs []
    else splitWsAux cs (c :: acc)

/-- Python str.split() with no argument: split on whitespace runs, dropping
empty pieces. -/
def tokenize (s : String) : List String :=
  (splitWsAux s.toList []).map List.asString

/-- Mirrors process_delete_id (main.py lines 795-833): split the message into
tokens and run the deletion loop; the commit at the end makes the per-step
session state the final table. -/
def process_delete_id (ps : List Product) (text : String) :
    List Product × List String × List String :=
  deleteTokens ps (tokenize text)

/-- A successful first fetch leaves the URL cached with the returned bitmap. -/
lemma download_image_success_cached (net : String → Option HttpResponse)
    (decodeImg : List Nat → Option Img) (st : DlState) (url : String) (img : Img)
    (h : (download_image net decodeImg st url).2 = some img) :
    List.lookup url (download_image net decodeImg st url).1.image_cache = some img := by
  unfold download_image at h ⊢
  cases hc : List.lookup url st.image_cache with
  | some i =>
    simp [hc] at h ⊢
    exact h
  | none =>
    cases hn : net url with
    | none => simp [hc, hn] at h
    | some resp =>
      by_cases hs : resp.status = 200
      · cases hd : decodeImg resp.body with
        | none => simp [hc, hn, hs, hd] at h
        | some img0 =>
          simp [hc, hn, hs, hd] at h ⊢
          exact h
      · simp [hc, hn, hs] at h

/-- Claim C4: for every URL, two sequential fetches perform at most one
network retrieval — the first fetch performs at most one, and if it
succeeded (populating the cache), the second fetch returns the cached
bitmap with no network access and no state change at all. -/
theorem download_image_cache_idempotent (net : String → Option HttpResponse)
    (decodeImg : List Nat → Option Img) (st : DlState) (url : String) (img : Img)
    (h : (download_image net decodeImg st url).2 = some img) :
    download_image net decodeImg (download_image net decodeImg st url).1 url
      = ((download_image net decodeImg st url).1, some img)
    ∧ (download_image net decodeImg st url).1.network_calls ≤ st.network_calls + 1 := by
  constructor
  · have hcache := download_image_success_cached net decodeImg st url img h
    generalize hg : download_image net decodeImg st url = r at hcache ⊢
    unfold download_image
    rw [hcache]
  · unfold download_image
    cases hc : List.lookup url st.image_cache with
    | some i => simp
    | none =>
      cases hn : net url with
      | none => simp
      | some resp =>
        by_cases hs : resp.status = 200
        · cases hd : decodeImg resp.body with
          | none => simp [hs, hd]
          | some img0 => simp [hs, hd]
        · simp [hs]

/-- Witness for C4 at a concrete network and state. -/
theorem download_image_cache_idempotent_witness :
    (download_image (fun u => if u == "http://a" then some ⟨200, [1, 2]⟩ else none)
        (fun _ => some ⟨100, 50⟩) ⟨[], 0⟩ "http://a").2 = some ⟨100, 50⟩
    ∧ download_image (fun u => if u == "http://a" then some ⟨200, [1, 2]⟩ else none)
        (fun _ => some ⟨100, 50⟩)
        (download_image (fun u => if u == "http://a" then some ⟨200, [1, 2]⟩ else none)
          (fun _ => some ⟨100, 50⟩) ⟨[], 0⟩ "http://a").1 "http://a"
      = ((download_image (fun u => if u == "http://a" then some ⟨200, [1, 2]⟩ else none)
          (fun _ => some ⟨100, 50⟩) ⟨[], 0⟩ "http://a").1, some ⟨100, 50⟩) :=
  ⟨by decide,
   (download_image_cache_idempotent (fun u => if u == "http://a" then some ⟨200, [1, 2]⟩ else none)
     (fun _ => some ⟨100, 50⟩) ⟨[], 0⟩ "http://a" ⟨100, 50⟩ (by decide)).1⟩

/-- Claim C9: a failed fetch leaves the cache unchanged for that URL, so the
miss is not memoized and a later fetch of the same URL performs a new
network retrieval (the counter grows by one on each of the two calls). -/
theorem download_image_miss_not_memoized (net : String → Option HttpResponse)
    (decodeImg : List Nat → Option Img) (st : DlState) (url : String)
    (h : (download_image net decodeImg st url).2 = none) :
    (download_image net decodeImg st url).1.image_cache = st.image_cache
    ∧ (download_image net decodeImg
        (download_image net decodeImg st url).1 url).1.network_calls
      = st.network_calls + 2 := by
  have hcache : (download_image net decodeImg st url).1.image_cache = st.image_cache
      ∧ (download_image net decodeImg st url).1.network_calls = st.network_calls + 1 := by
    unfold download_image at h ⊢
    cases hc : List.lookup url st.image_cache with
    | some i => simp [hc] at h
    | none =>
      cases hn : net url with
      | none => simp [hc, hn]
      | some resp =>
        by_cases hs : resp.status = 200
        · cases hd : decodeImg resp.body with
          | none => simp [hc, hn, hs, hd]
          | some img0 => simp [hc, hn, hs, hd] at h
        · simp [hc, hn, hs]
  have hmiss : List.lookup url st.image_cache = none := by
    cases hc : List.lookup url st.image_cache with
    | none => rfl
    | some i =>
      unfold download_image at h
      simp [hc] at h
  refine ⟨hcache.1, ?_⟩
  obtain ⟨hc1, hn1⟩ := hcache
  generalize hg : download_image net decodeImg st url = r at hc1 hn1 ⊢
  unfold download_image
  rw [hc1, hmiss]
  cases hn : net url with
  | none => simp [hn1]
  | some resp =>
    by_cases hs : resp.status = 200
    · cases hd : decodeImg resp.body with
      | none => simp [hs, hd, hn1]
      | some img0 => simp [hs, hd, hn1]
    · simp [hs, hn1]

/-- Witness for C9 at a network that always errors. -/
theorem download_image_miss_not_memoized_witness :
    (download_image (fun _ => none) (fun _ => none) ⟨[], 0⟩ "http://b").1.image_cache = []
    ∧ (download_image (fun _ => none) (fun _ => none)
        (download_image (fun _ => none) (fun _ => none) ⟨[], 0⟩ "http://b").1
        "http://b").1.network_calls = 2 :=
  download_image_miss_not_memoized (fun _ => none) (fun _ => none) ⟨[], 0⟩ "http://b" (by decide)

/-- Claim C8: a failing input in a validating conversation state re-prompts
and leaves both the state and the accumulated step data unchanged:
a non-integer text in AwaitingPrice, and a label outside the enumerated
category set in AwaitingCategory (which also leaves the store unchanged). -/
theorem validation_failure_frame (data : AddData) (text : String)
    (store : List Product) (nextId : Int) :
    (pyInt? text = none →
      process_price data text
        = (some (AddState.waiting_price, data), "❌ Цена должна быть числом! Попробуйте еще раз"))
    ∧ (List.lookup text category_map = none →
      process_category store nextId data text
        = (store, some (AddState.waiting_category, data), "❌ Выберите категорию из предложенных")) := by
  constructor
  · intro h
    simp [process_price, h]
  · intro h
    simp [process_category, h]

/-- Witness for C8: non-numeric price text and unknown category label. -/
theorem validation_failure_frame_witness :
    process_price ⟨some "ph", some "Car", none, none⟩ "abc"
      = (some (AddState.waiting_price, ⟨some "ph", some "Car", none, none⟩),
         "❌ Цена должна быть числом! Попробуйте еще раз")
    ∧ process_category [] 1 ⟨some "ph", some "Car", none, none⟩ "gibberish"
      = ([], some (AddState.waiting_category, ⟨some "ph", some "Car", none, none⟩),
         "❌ Выберите категорию из предложенных") :=
  ⟨(validation_failure_frame ⟨some "ph", some "Car", none, none⟩ "abc" [] 1).1 (by decide),
   (validation_failure_frame ⟨some "ph", some "Car", none, none⟩ "gibberish" [] 1).2 (by decide)⟩

/-- Claim C6: an item-selection callback with no active session or with an
id absent from the render-time mapping yields the not-found answer, never a
crash or a wrong item; when the id is present, the shown product is the one
resolved from the session snapshot taken at render time (show_product reads
only the session, never the live catalog). -/
theorem show_product_stale_reference (ud : Option SessionData) (pid : Int) :
    (ud = none → show_product ud pid = ShowProductResult.notFound)
    ∧ (∀ s, ud = some s → products_dict_find s.products pid = none →
        show_product ud pid = ShowProductResult.notFound)
    ∧ (∀ s p, ud = some s → products_dict_find s.products pid = some p →
        show_product ud pid = ShowProductResult.shown p s.category) := by
  refine ⟨?_, ?_, ?_⟩
  · intro h
    simp [show_product, h]
  · intro s hs hfind
    simp [show_product, hs, hfind]
  · intro s p hs hfind
    simp [show_product, hs, hfind]

/-- Witness for C6: missing session, stale id, and present id. -/
theorem show_product_stale_reference_witness :
    show_product none 1 = ShowProductResult.notFound
    ∧ show_product (some ⟨"main", [⟨1, "main", "Car", 100, "ph", "d"⟩], [5]⟩) 99
        = ShowProductResult.notFound
    ∧ show_product (some ⟨"main", [⟨1, "main", "Car", 100, "ph", "d"⟩], [5]⟩) 1
        = ShowProductResult.shown ⟨1, "main", "Car", 100, "ph", "d"⟩ "main" :=
  ⟨(show_product_stale_reference none 1).1 rfl,
   (show_product_stale_reference (some ⟨"main", [⟨1, "main", "Car", 100, "ph", "d"⟩], [5]⟩) 99).2.1
     ⟨"main", [⟨1, "main", "Car", 100, "ph", "d"⟩], [5]⟩ rfl (by decide),
   (show_product_stale_reference (some ⟨"main", [⟨1, "main", "Car", 100, "ph", "d"⟩], [5]⟩) 1).2.2
     ⟨"main", [⟨1, "main", "Car", 100, "ph", "d"⟩], [5]⟩ ⟨1, "main", "Car", 100, "ph", "d"⟩ rfl (by decide)⟩

/-- Closed form of create_collage_sync on a non-empty list. -/
lemma create_collage_sync_cons (first : Img) (rest : List Img) :
    create_collage_sync (first :: rest) =
      some ⟨min 3 (rest.length + 1) * first.width,
            ((rest.length + 1 + min 3 (rest.length + 1) - 1) / min 3 (rest.length + 1))
              * first.height,
            (List.range (rest.length + 1)).map (fun i =>
              ((i % min 3 (rest.length + 1)) * first.width,
               (i / min 3 (rest.length + 1)) * first.height))⟩ := by
  have h : ¬ (min 3 (rest.length + 1) = 0) := by omega
  simp [create_collage_sync, h]

/-- Claim C5: for a non-empty list of N same-size bitmaps the composer
produces a canvas of cols*width by rows*height with cols = min 3 N and
rows = ceil(N/cols) (written (N + cols - 1) / cols), pasting image i at
cell (i mod cols, i div cols); for the empty list it fails (the Python
code divides by cols = 0 and the except handler returns None). -/
theorem create_collage_grid (first : Img) (rest : List Img)
    (hsame : ∀ i ∈ first :: rest, i.width = first.width ∧ i.height = first.height) :
    create_collage_sync (first :: rest) =
      some ⟨min 3 (rest.length + 1) * first.width,
            ((rest.length + 1 + min 3 (rest.length + 1) - 1) / min 3 (rest.length + 1))
              * first.height,
            (List.range (rest.length + 1)).map (fun i =>
              ((i % min 3 (rest.length + 1)) * first.width,
               (i / min 3 (rest.length + 1)) * first.height))⟩
    ∧ create_collage_sync [] = none :=
  ⟨create_collage_sync_cons first rest, rfl⟩

/-- Witness for C5: four 10x20 thumbnails give a 3-column 2-row canvas, one
thumbnail gives a 1x1 canvas, zero thumbnails fail. -/
theorem create_collage_grid_witness :
    create_collage_sync [⟨10, 20⟩, ⟨10, 20⟩, ⟨10, 20⟩, ⟨10, 20⟩]
      = some ⟨30, 40, [(0, 0), (10, 0), (20, 0), (0, 20)]⟩
    ∧ create_collage_sync [⟨10, 20⟩] = some ⟨10, 20, [(0, 0)]⟩
    ∧ create_collage_sync [] = none := by
  have h4 := (create_collage_grid ⟨10, 20⟩ [⟨10, 20⟩, ⟨10, 20⟩, ⟨10, 20⟩] (by decide)).1
  have h1 := create_collage_grid ⟨10, 20⟩ [] (by decide)
  exact ⟨h4.trans (by decide), (h1.1).trans (by decide), h1.2⟩

/-- Frame law of the token loop body: whatever was already accumulated is
kept and the step contributes only its own deletion/report. -/
lemma deleteStep_frame (ps : List Product) (d n : List String) (tok : String) :
    deleteStep (ps, d, n) tok =
      ((deleteStep (ps, [], []) tok).1,
       d ++ (deleteStep (ps, [], []) tok).2.1,
       n ++ (deleteStep (ps, [], []) tok).2.2) := by
  unfold deleteStep
  dsimp only
  cases hpid : pyInt? tok with
  | none => simp
  | some pid =>
    dsimp only
    cases hf : (List.filter (fun p => p.id == pid) ps).head? with
    | none => simp
    | some p => simp

/-- The token loop started with non-empty accumulators equals the loop
started empty, with the old accumulators prepended. -/
lemma deleteTokens_acc (toks : List String) : ∀ (ps : List Product) (d n : List String),
    toks.foldl deleteStep (ps, d, n) =
      ((deleteTokens ps toks).1,
       d ++ (deleteTokens ps toks).2.1,
       n ++ (deleteTokens ps toks).2.2) := by
  induction toks with
  | nil =>
    intro ps d n
    simp [deleteTokens]
  | cons t ts ih =>
    intro ps d n
    rcases hstep : deleteStep (ps, [], []) t with ⟨P0, d0, n0⟩
    have hfull : deleteStep (ps, d, n) t = (P0, d ++ d0, n ++ n0) := by
      rw [deleteStep_frame, hstep]
    simp only [deleteTokens, List.foldl_cons, hfull, hstep]
    rw [ih P0 (d ++ d0) (n ++ n0), ih P0 d0 n0]
    simp

/-- Claim C7: every token of a bulk delete is processed independently. A
malformed token inserted anywhere only adds itself to the not-found report
and never aborts the deletions performed for the surrounding tokens; a
token parsing to an id with a matching row deletes exactly that row and
reports its name; a parsed token matching no row only reports the id as
not found. -/
theorem bulk_delete_independent (ps : List Product) (l1 l2 : List String) (tok : String) :
    (pyInt? tok = none →
      deleteTokens ps (l1 ++ tok :: l2) =
        ((deleteTokens (deleteTokens ps l1).1 l2).1,
         (deleteTokens ps l1).2.1 ++ (deleteTokens (deleteTokens ps l1).1 l2).2.1,
         (deleteTokens ps l1).2.2 ++ tok :: (deleteTokens (deleteTokens ps l1).1 l2).2.2))
    ∧ (∀ pid p, pyInt? tok = some pid →
        (ps.filter (fun q => q.id == pid)).head? = some p →
        deleteStep (ps, [], []) tok = (ps.eraseP (fun q => q.id == pid), [p.name], []))
    ∧ (∀ pid, pyInt? tok = some pid →
        (ps.filter (fun q => q.id == pid)).head? = none →
        deleteStep (ps, [], []) tok = (ps, [], [toString pid])) := by
  refine ⟨?_, ?_, ?_⟩
  · intro hbad
    rcases h1 : deleteTokens ps l1 with ⟨P1, D1, N1⟩
    have hstep : deleteStep (P1, D1, N1) tok = (P1, D1, N1 ++ [tok]) := by
      unfold deleteStep
      rw [hbad]
    unfold deleteTokens at h1 ⊢
    rw [List.foldl_append, h1]
    simp only [List.foldl_cons, hstep]
    rw [deleteTokens_acc l2 P1 D1 (N1 ++ [tok])]
    simp [deleteTokens]
  · intro pid p hpid hfind
    unfold deleteStep
    rw [hpid]
    dsimp only
    rw [hfind]
    simp
  · intro pid hpid hfind
    unfold deleteStep
    rw [hpid]
    dsimp only
    rw [hfind]
    simp

/-- Sample product table for the C7 witness: ids 5 and 7 exist. -/
def demo_products : List Product :=
  [⟨5, "main", "Five", 100, "p5", "d5"⟩, ⟨7, "main", "Seven", 200, "p7", "d7"⟩]

/-- Witness for C7: the spec scenario "5 9x 7" deletes both existing items
and reports the malformed token, through the full handler including the
whitespace split. -/
theorem bulk_delete_independent_witness :
    pyInt? "9x" = none
    ∧ process_delete_id demo_products "5 9x 7" = ([], ["Five", "Seven"], ["9x"]) := by
  have h := (bulk_delete_independent demo_products ["5"] ["7"] "9x").1 (by decide)
  exact ⟨by decide,
    (by decide :
      process_delete_id demo_products "5 9x 7"
        = deleteTokens demo_products (["5"] ++ "9x" :: ["7"])).trans
      (h.trans (by decide))⟩

/-- The caption loop started at k writes one line per product, line i (from
zero) carrying number k+i and the i-th product of the list. -/
lemma productsTextAux_eq (ps : List Product) : ∀ k,
    productsTextAux k ps
      = ((List.range ps.length).map
          (fun i => product_line (k + i) (ps.getD i default))).foldr (fun a b => a ++ b) "" := by
  induction ps with
  | nil =>
    intro k
    rfl
  | cons p ps ih =>
    intro k
    have harg : ∀ i : Nat, product_line (k + (i + 1)) ((p :: ps).getD (i + 1) default)
        = product_line (k + 1 + i) (ps.getD i default) := by
      intro i
      rw [List.getD_cons_succ]
      congr 1
      omega
    calc productsTextAux k (p :: ps)
        = product_line k p ++ productsTextAux (k + 1) ps := rfl
      _ = product_line k p
            ++ ((List.range ps.length).map
                (fun i => product_line (k + 1 + i) (ps.getD i default))).foldr
              (fun a b => a ++ b) "" := by rw [ih]
      _ = _ := by
            rw [List.length_cons, List.range_succ_eq_map]
            simp only [List.map_cons, List.map_map, List.foldr_cons, Function.comp_def,
              List.getD_cons_zero, Nat.add_zero, harg]

/-- Row chunking never loses or reorders buttons: flattening the loop state
yields exactly one numbered button per processed index, in order. -/
lemma buttons_foldl_join (ps : List Product) (l : List Nat) :
    ∀ acc : List (List InlineButton) × List InlineButton,
    ((l.foldl (buttons_step ps) acc).1).join ++ (l.foldl (buttons_step ps) acc).2
      = acc.1.join ++ acc.2 ++ l.map (product_button ps) := by
  induction l with
  | nil =>
    intro acc
    simp
  | cons x xs ih =>
    intro acc
    rw [List.foldl_cons, ih]
    by_cases h : x % 3 = 0
    · simp [buttons_step, h, List.join_append, List.append_assoc]
    · simp [buttons_step, h, List.append_assoc]

/-- Flattened form of category_buttons: the numbered buttons 1..N in order,
then the back-to-menu button. -/
lemma category_buttons_join (ps : List Product) :
    (category_buttons ps).join
      = (List.range ps.length).map (fun i => product_button ps (i + 1))
        ++ [back_to_menu_button] := by
  have h := buttons_foldl_join ps (List.range' 1 ps.length) ([], [])
  have hmap : (List.range' 1 ps.length).map (product_button ps)
      = (List.range ps.length).map (fun i => product_button ps (i + 1)) := by
    rw [List.range'_eq_map_range, List.map_map]
    have hcomm : ∀ i : Nat, product_button ps (1 + i) = product_button ps (i + 1) := by
      intro i
      rw [Nat.add_comm]
    simp only [Function.comp_def, hcomm]
  unfold category_buttons
  dsimp only
  rcases hr : (List.range' 1 ps.length).foldl (buttons_step ps) ([], []) with ⟨bs, row⟩
  rw [hr] at h
  dsimp only at h ⊢
  simp only [List.join_nil, List.nil_append] at h
  rw [hmap] at h
  rw [← h]
  cases row with
  | nil => simp [List.join_append]
  | cons b row2 => simp [List.join_append]

/-- Claim C3: whenever at least one image fetch succeeds (the surviving
image list is hd :: tl), the render emits a unit whose caption enumerates
ALL products of the category in catalog query order, numbered 1..N with
name and price (failed-image items included), and whose numbered selection
buttons carry, for display index i+1, the identifier of the product at
position i of the catalog query order (failed-image items selectable). -/
theorem render_order_and_controls (imgs : List (Option Img)) (hd : Img) (tl : List Img)
    (ps : List Product) (cn : String) (heq : imgs.filterMap id = hd :: tl) :
    create_combined_message imgs ps cn =
      some (⟨min 3 (tl.length + 1) * hd.width,
             ((tl.length + 1 + min 3 (tl.length + 1) - 1) / min 3 (tl.length + 1)) * hd.height,
             (List.range (tl.length + 1)).map (fun i =>
               ((i % min 3 (tl.length + 1)) * hd.width,
                (i / min 3 (tl.length + 1)) * hd.height))⟩,
        caption_header cn
          ++ ((List.range ps.length).map
              (fun i => product_line (i + 1) (ps.getD i default))).foldr (fun a b => a ++ b) "",
        ps.length)
    ∧ (category_buttons ps).join
        = (List.range ps.length).map (fun i =>
            InlineButton.mk (toString (i + 1)) ("product_" ++ toString ((ps.getD i default).id)))
          ++ [back_to_menu_button] := by
  constructor
  · have hcomm : ∀ i : Nat, product_line (1 + i) (ps.getD i default)
        = product_line (i + 1) (ps.getD i default) := by
      intro i
      rw [Nat.add_comm]
    unfold create_combined_message
    dsimp only
    rw [heq, create_collage_sync_cons]
    rw [productsTextAux_eq ps 1]
    simp only [hcomm, List.isEmpty_cons, Bool.false_eq_true, if_false]
  · rw [category_buttons_join]
    simp only [product_button, Nat.add_sub_cancel]

/-- Witness for C3: two products, one image failing, one succeeding — both
products are captioned and both are selectable. -/
theorem render_order_and_controls_witness :
    create_combined_message [some ⟨50, 60⟩, none] demo_products "Каталог"
      = some (⟨50, 60, [(0, 0)]⟩,
          "📋 Каталог - список моделей:\n\n1. Five - 100 руб.\n2. Seven - 200 руб.\n", 2)
    ∧ (category_buttons demo_products).join
      = [⟨"1", "product_5"⟩, ⟨"2", "product_7"⟩, back_to_menu_button] := by
  have h := render_order_and_controls [some ⟨50, 60⟩, none] ⟨50, 60⟩ [] demo_products "Каталог"
    (by decide)
  exact ⟨h.1.trans (by decide), h.2.trans (by decide)⟩

/-- Claim C2: in the AwaitingPaymentMethod state, a payment-method text
triggers a fresh cart read (the store argument at call time). If the cart is
non-empty and its items resolve, the user confirmation carries a total equal
to the sum of the prices of the cart items, the cart is cleared for that
user, a separate operator notification is emitted and the context returns
to Idle (cleared). If the re-read cart is empty, the flow aborts to Idle
with a user-visible notice and without touching the store. -/
theorem checkout_payment_step (s : Store) (uid : Int) (ctx : OrderCtx) (pay tag : String)
    (hstate : ctx.state = some ConvState.waiting_payment_info) :
    (∀ prods, cart_items_for s uid ≠ [] →
      resolve_cart s (cart_items_for s uid) = some prods →
      process_payment_info s uid ctx pay tag true true =
        (clear_cart_for s uid, cleared_ctx,
         [PayEvent.commitClearCart,
          PayEvent.answerOrder (ctx.contact.getD "не указан") pay
            (prods.map (fun p => (p.name, p.price))) ((prods.map (fun p => p.price)).sum),
          PayEvent.notifyAdmin tag (ctx.contact.getD "не указан") pay
            (prods.map (fun p => (p.name, p.price))) ((prods.map (fun p => p.price)).sum)])
      ∧ cart_items_for (clear_cart_for s uid) uid = [])
    ∧ (cart_items_for s uid = [] →
      process_payment_info s uid ctx pay tag true true
        = (s, cleared_ctx, [PayEvent.answerEmptyCart])) := by
  constructor
  · intro prods hne hres
    have hemp : (cart_items_for s uid).isEmpty = false := by
      cases hc : cart_items_for s uid with
      | nil => exact absurd hc hne
      | cons a as => rfl
    constructor
    · unfold process_payment_info
      dsimp only
      rw [if_neg (by rw [hemp]; exact Bool.false_ne_true), hres]
      rfl
    · unfold cart_items_for clear_cart_for
      dsimp only
      rw [List.filter_filter]
      rw [List.filter_eq_nil]
      intro a ha
      simp
  · intro hempty
    unfold process_payment_info
    dsimp only
    rw [hempty]
    rfl

/-- Sample store for the checkout witnesses: user 9 has items A (100) and
B (250) in the cart. -/
def demo_store : Store :=
  ⟨[⟨1, "main", "A", 100, "pa", "da"⟩, ⟨2, "main", "B", 250, "pb", "db"⟩],
   [⟨1, 9, 1⟩, ⟨2, 9, 2⟩]⟩

/-- Sample checkout context in the AwaitingPaymentMethod state. -/
def demo_ctx : OrderCtx := ⟨some ConvState.waiting_payment_info, some "@user"⟩

/-- Witness for C2: total 350 confirmed and cart cleared for the spec
scenario, and the empty-cart re-read aborts with the notice. -/
theorem checkout_payment_step_witness :
    process_payment_info demo_store 9 demo_ctx "card" "@user" true true =
      (clear_cart_for demo_store 9, cleared_ctx,
       [PayEvent.commitClearCart,
        PayEvent.answerOrder "@user" "card" [("A", 100), ("B", 250)] 350,
        PayEvent.notifyAdmin "@user" "@user" "card" [("A", 100), ("B", 250)] 350])
    ∧ cart_items_for (clear_cart_for demo_store 9) 9 = []
    ∧ process_payment_info ⟨demo_store.products, []⟩ 9 demo_ctx "card" "@user" true true
      = (⟨demo_store.products, []⟩, cleared_ctx, [PayEvent.answerEmptyCart]) := by
  have h := checkout_payment_step demo_store 9 demo_ctx "card" "@user" rfl
  have h1 := h.1 [⟨1, "main", "A", 100, "pa", "da"⟩, ⟨2, "main", "B", 250, "pb", "db"⟩]
    (by decide) (by decide)
  have h2 := (checkout_payment_step ⟨demo_store.products, []⟩ 9 demo_ctx "card" "@user" rfl).2
    (by decide)
  exact ⟨h1.1.trans (by decide), h1.2, h2⟩

/-- Claim C10: the conversation context is cleared on every exit of
process_payment_info (success, empty-cart abort, resolution error, send
failures), and when the cart is non-empty and resolves, the cart clearing
is committed first — the event trace starts with the commit — and the store
keeps the cleared cart even if the user confirmation or the operator
notification fails afterwards (no rollback). -/
theorem checkout_commit_before_send (s : Store) (uid : Int) (ctx : OrderCtx) (pay tag : String)
    (uOk aOk : Bool) :
    (process_payment_info s uid ctx pay tag uOk aOk).2.1 = cleared_ctx
    ∧ (∀ prods, cart_items_for s uid ≠ [] →
        resolve_cart s (cart_items_for s uid) = some prods →
        (process_payment_info s uid ctx pay tag uOk aOk).1 = clear_cart_for s uid
        ∧ ∃ rest, (process_payment_info s uid ctx pay tag uOk aOk).2.2
            = PayEvent.commitClearCart :: rest) := by
  constructor
  · unfold process_payment_info
    dsimp only
    by_cases hi : (cart_items_for s uid).isEmpty = true
    · rw [if_pos hi]
    · rw [if_neg hi]
      cases hr : resolve_cart s (cart_items_for s uid) with
      | none => rfl
      | some prods =>
        dsimp only
        cases uOk with
        | false => rfl
        | true => cases aOk <;> rfl
  · intro prods hne hres
    have hemp : (cart_items_for s uid).isEmpty = false := by
      cases hc : cart_items_for s uid with
      | nil => exact absurd hc hne
      | cons a as => rfl
    unfold process_payment_info
    dsimp only
    rw [if_neg (by rw [hemp]; exact Bool.false_ne_true), hres]
    dsimp only
    cases uOk with
    | false => exact ⟨rfl, _, rfl⟩
    | true => cases aOk with
      | false => exact ⟨rfl, _, rfl⟩
      | true => exact ⟨rfl, _, rfl⟩

/-- Witness for C10: both sends fail, yet the cart stays cleared, the trace
starts with the commit, and the context is cleared. -/
theorem checkout_commit_before_send_witness :
    (process_payment_info demo_store 9 demo_ctx "card" "@user" false false).2.1 = cleared_ctx
    ∧ (process_payment_info demo_store 9 demo_ctx "card" "@user" false false).1
        = clear_cart_for demo_store 9
    ∧ (process_payment_info demo_store 9 demo_ctx "card" "@user" false false).2.2
        = [PayEvent.commitClearCart, PayEvent.answerError] := by
  have h := checkout_commit_before_send demo_store 9 demo_ctx "card" "@user" false false
  have h2 := h.2 [⟨1, "main", "A", 100, "pa", "da"⟩, ⟨2, "main", "B", 250, "pb", "db"⟩]
    (by decide) (by decide)
  exact ⟨h.1, h2.1, by decide⟩

/-- Claim C1 is violated by the code: show_category overwrites the session
entry (resetting last_msg_ids to the empty list) at main.py line 209 BEFORE
the deletion check at line 251 reads it, so on a second render for the same
user no deletion of the first render's message id is attempted — the new
unit is emitted while the old message survives. The first conjunct fixes
the state after the first render (message id 100 recorded as active); the
second shows the second render's event trace contains no deleteMsg event at
all. -/
theorem show_category_second_render_drops_retraction :
    ((show_category (fun _ => none) 1 "main" "🏎 Мейн модели"
        [⟨1, "main", "Car", 100, "ph", "d"⟩] [some ⟨100, 100⟩] 100).1 1
      = some ⟨"main", [⟨1, "main", "Car", 100, "ph", "d"⟩], [100]⟩)
    ∧ (((show_category
          ((show_category (fun _ => none) 1 "main" "🏎 Мейн модели"
            [⟨1, "main", "Car", 100, "ph", "d"⟩] [some ⟨100, 100⟩] 100).1)
          1 "main" "🏎 Мейн модели"
          [⟨1, "main", "Car", 100, "ph", "d"⟩] [some ⟨100, 100⟩] 101).2).filter
        (fun e => match e with
          | RenderEvent.deleteMsg _ => true
          | _ => false) = []) := by
  exact ⟨rfl, rfl⟩
